import Mathlib

/-!
Verification of the VidTrainPrep range/crop/export core.

The definitions below are shallow embeddings of the Python sources:
- `scripts/video_cropper.py` (range store: duration updates, nudges,
  add/remove with ordinal renumbering, display-to-source transform),
- `scripts/custom_graphics_scene.py` (aspect-ratio constraint and scene
  clipping applied while a crop rectangle is drawn),
- `scripts/video_editor.py` (frame display clamping and the per-tick
  playback step),
- `scripts/video_exporter.py` (caption writing, cropped-video filter
  graph, per-range export artifact production).

Frame indices and pixel coordinates are Python ints, embedded as `Int`.
Qt's `QRectF` real coordinates are embedded as `ℚ`.
-/

namespace VidTrainPrep

/-! ## Range store (`video_cropper.py`) -/

/-- A crop rectangle `(x, y, w, h)` in source-pixel coordinates. -/
def CropRect := Int × Int × Int × Int

instance : DecidableEq CropRect := by unfold CropRect; infer_instance

/-- One entry of `video_data[path]["ranges"]`: `{"id", "start", "end", "crop", "index"}`.
The `end` field is embedded as `stop` (`end` is a Lean keyword); the opaque uuid
id is embedded as a `Nat` token. -/
structure RangeEntry where
  rid : Nat
  start : Int
  stop : Int
  crop : Option CropRect
  index : Nat
deriving DecidableEq

/-- `VideoCropper.update_range_duration_from_input` (video_cropper.py:714-766),
acting on the selected range `(start, stop)` of a video with `frame_count`
frames: a non-positive duration reverts; otherwise
`new_end = min(start + new_duration, frame_count)`, reverting when
`new_end <= start`, else storing `end := new_end`. -/
def update_range_duration_from_input (start stop frame_count new_duration : Int) :
    Int × Int :=
  if new_duration ≤ 0 then (start, stop)
  else
    let new_end := min (start + new_duration) frame_count
    if new_end ≤ start then (start, stop)
    else (start, new_end)

/-- `VideoCropper.nudge_start_frame` (video_cropper.py:594-635):
`new_start = max(0, start + delta)`, `new_end = min(new_start + duration,
frame_count)`; rejected (range unchanged) when `new_start >= new_end`. -/
def nudge_start_frame (start stop frame_count delta : Int) : Int × Int :=
  let current_duration := stop - start
  let new_start := max 0 (start + delta)
  let new_end := min (new_start + current_duration) frame_count
  if new_end ≤ new_start then (start, stop)
  else (new_start, new_end)

/-- `VideoCropper.nudge_end_frame` (video_cropper.py:637-652): reads the
current duration (the duration input mirrors `stop - start` of the selected
range), bumps it by `delta` with a minimum of 1, and routes through
`update_range_duration_from_input`. -/
def nudge_end_frame (start stop frame_count delta : Int) : Int × Int :=
  let current_duration := stop - start
  let new_duration := max 1 (current_duration + delta)
  update_range_duration_from_input start stop frame_count new_duration

/-- The `for i, r in enumerate(...): r["index"] = i + 1` renumbering loop of
`remove_selected_range`, generalized over the first ordinal. -/
def reindexFrom (n : Nat) : List RangeEntry → List RangeEntry
  | [] => []
  | r :: rs => { r with index := n } :: reindexFrom (n + 1) rs

/-- `VideoCropper.remove_selected_range` (video_cropper.py:825-878), data part:
filter out the range with the given id, then renumber `index` to `1..N`. -/
def remove_selected_range (rs : List RangeEntry) (ridToRemove : Nat) :
    List RangeEntry :=
  reindexFrom 1 (rs.filter fun r => r.rid != ridToRemove)

/-- `VideoCropper.add_new_range` (video_cropper.py:768-819), data part: append
a new range whose `index` is `len(video_ranges) + 1`. -/
def add_new_range (rs : List RangeEntry) (newId : Nat) (s e : Int)
    (c : Option CropRect) : List RangeEntry :=
  rs ++ [{ rid := newId, start := s, stop := e, crop := c, index := rs.length + 1 }]

/-- The ordinal invariant: the `index` fields are exactly `1..N` in list order. -/
def ordinalsOk (rs : List RangeEntry) : Prop :=
  rs.map (fun r => r.index) = List.range' 1 rs.length

instance (rs : List RangeEntry) : Decidable (ordinalsOk rs) := by
  unfold ordinalsOk; infer_instance

/-- The identity and bounds data of a range, i.e. everything but the ordinal. -/
def rangePayload (r : RangeEntry) : Nat × Int × Int × Option CropRect :=
  (r.rid, r.start, r.stop, r.crop)

theorem reindexFrom_map_index (n : Nat) (rs : List RangeEntry) :
    (reindexFrom n rs).map (fun r => r.index) = List.range' n rs.length := by
  induction rs generalizing n with
  | nil => simp [reindexFrom]
  | cons r rs ih =>
      simp [reindexFrom, List.range'_succ, ih]

theorem reindexFrom_map_payload (n : Nat) (rs : List RangeEntry) :
    (reindexFrom n rs).map rangePayload = rs.map rangePayload := by
  induction rs generalizing n with
  | nil => simp [reindexFrom]
  | cons r rs ih =>
      simp [reindexFrom, ih, rangePayload]

theorem reindexFrom_length (n : Nat) (rs : List RangeEntry) :
    (reindexFrom n rs).length = rs.length := by
  induction rs generalizing n with
  | nil => simp [reindexFrom]
  | cons r rs ih => simp [reindexFrom, ih]

/-- C1: for a selected range `(start, stop)` and requested duration `d > 0`,
`update_range_duration_from_input` recomputes `end = min(start + d,
frame_count)`, leaves the range unchanged when that clamped end would be
`≤ start`, and never leaves `end ≤ start`; in particular `start = 100`,
`frame_count = 150`, `d = 1000` yields `end = 150` (duration 50). -/
theorem C1_update_duration (start stop frame_count d : Int)
    (hd : 0 < d) (hvalid : start < stop) :
    (start < min (start + d) frame_count →
      update_range_duration_from_input start stop frame_count d
        = (start, min (start + d) frame_count))
    ∧ (min (start + d) frame_count ≤ start →
      update_range_duration_from_input start stop frame_count d = (start, stop))
    ∧ start < (update_range_duration_from_input start stop frame_count d).2 := by
  unfold update_range_duration_from_input
  have hd' : ¬ d ≤ 0 := by omega
  refine ⟨?_, ?_, ?_⟩
  · intro h
    simp only [if_neg hd']
    rw [if_neg (by omega)]
  · intro h
    simp only [if_neg hd']
    rw [if_pos h]
  · simp only [if_neg hd']
    split
    · exact hvalid
    · simpa using by omega

/-- C1 witness: requesting duration 1000 on `start = 100` with
`frame_count = 150` yields `end = 150`, not a rejection. -/
theorem C1_update_duration_witness :
    update_range_duration_from_input 100 120 150 1000 = (100, 150) := by
  have h := (C1_update_duration 100 120 150 1000 (by decide) (by decide)).1
    (by decide)
  rw [h]
  decide

/-- C2 counterexample: with `frame_count = 150`, nudging the start of the
range `(100, 150)` by `+10` is neither rejected nor duration-preserving:
the code clamps the recomputed end to `frame_count` and stores `(110, 150)`,
shrinking the duration from 50 to 40. -/
theorem C2_nudge_counterexample :
    nudge_start_frame 100 150 150 10 = (110, 150)
    ∧ (nudge_start_frame 100 150 150 10).2 - (nudge_start_frame 100 150 150 10).1
        ≠ (150 : Int) - 100 := by
  constructor
  · decide
  · decide

/-- C2 amended: the concrete example holds exactly (300 frames,
`(30, 90)`, `nudgeEnd(+15)` gives `(30, 105)`, then `nudgeStart(-10)` gives
`(20, 95)` with the 75-frame duration preserved); in general `nudgeStart`
shifts `start` by `delta` clamped `≥ 0` and recomputes `end` to preserve the
duration except that `end` is clamped to `frame_count` (which may shrink the
duration), rejecting only when the clamped start would reach the clamped
end; the range invariants `0 ≤ start < end ≤ frame_count` are preserved.
Duration is preserved whenever the shifted range stays inside
`[0, frame_count]`. -/
theorem C2_nudge_amended (start stop frame_count delta : Int)
    (h0 : 0 ≤ start) (hv : start < stop) (hf : stop ≤ frame_count) :
    (nudge_end_frame 30 90 300 15 = (30, 105)
      ∧ nudge_start_frame 30 105 300 (-10) = (20, 95))
    ∧ (0 ≤ start + delta → stop + delta ≤ frame_count →
        nudge_start_frame start stop frame_count delta
          = (start + delta, stop + delta))
    ∧ (0 ≤ (nudge_start_frame start stop frame_count delta).1
        ∧ (nudge_start_frame start stop frame_count delta).1
            < (nudge_start_frame start stop frame_count delta).2
        ∧ (nudge_start_frame start stop frame_count delta).2 ≤ frame_count) := by
  refine ⟨⟨by decide, by decide⟩, ?_, ?_⟩
  · intro h1 h2
    unfold nudge_start_frame
    have hmax : max 0 (start + delta) = start + delta := by omega
    have hmin : min (start + delta + (stop - start)) frame_count
        = stop + delta := by omega
    simp only [hmax, hmin]
    rw [if_neg (by omega)]
  · unfold nudge_start_frame
    dsimp only
    split <;> dsimp only <;> refine ⟨?_, ?_, ?_⟩ <;> omega

/-- C2 witness: the amended general statement at the counterexample input:
nudging `(100, 150)` by `+10` with 150 frames stays within the invariants. -/
theorem C2_nudge_amended_witness :
    0 ≤ (nudge_start_frame 100 150 150 10).1
    ∧ (nudge_start_frame 100 150 150 10).1 < (nudge_start_frame 100 150 150 10).2
    ∧ (nudge_start_frame 100 150 150 10).2 ≤ 150 :=
  (C2_nudge_amended 100 150 150 10 (by decide) (by decide) (by decide)).2.2

/-- C3: removing any one range renumbers the ordinals of the remaining ranges
to the contiguous sequence `1..N` in their existing relative order (the
surviving entries' identity/bounds/crop data is that of the filtered list,
unchanged); adding a new range appends it with ordinal `N + 1`; and after
either operation the ordinals are exactly `1..N` in list order (for the
append this assumes the invariant held before, as the code renumbers only on
removal). -/
theorem C3_ordinal_renumbering (rs : List RangeEntry) (rid newId : Nat)
    (s e : Int) (c : Option CropRect) :
    ordinalsOk (remove_selected_range rs rid)
    ∧ (remove_selected_range rs rid).map rangePayload
        = (rs.filter fun r => r.rid != rid).map rangePayload
    ∧ (add_new_range rs newId s e c).map (fun r => r.index)
        = rs.map (fun r => r.index) ++ [rs.length + 1]
    ∧ (ordinalsOk rs → ordinalsOk (add_new_range rs newId s e c)) := by
  refine ⟨?_, ?_, ?_, ?_⟩
  · unfold ordinalsOk remove_selected_range
    rw [reindexFrom_map_index, reindexFrom_length]
  · unfold remove_selected_range
    rw [reindexFrom_map_payload]
  · simp [add_new_range]
  · intro h
    unfold ordinalsOk at h ⊢
    unfold add_new_range
    simp only [List.map_append, List.map_cons, List.map_nil, List.length_append,
      List.length_cons, List.length_nil, h]
    rw [List.range'_1_concat]
    simp [Nat.add_comm]

/-- C3 witness: on a concrete three-element range list with ordinals `1..3`,
removing the middle range renumbers to `1..2` preserving order, and a
subsequent append receives ordinal `3`. -/
theorem C3_ordinal_renumbering_witness :
    ordinalsOk (remove_selected_range
      [⟨10, 0, 5, none, 1⟩, ⟨11, 3, 9, none, 2⟩, ⟨12, 4, 7, none, 3⟩] 11)
    ∧ ordinalsOk (add_new_range
      (remove_selected_range
        [⟨10, 0, 5, none, 1⟩, ⟨11, 3, 9, none, 2⟩, ⟨12, 4, 7, none, 3⟩] 11)
      13 2 6 none) := by
  have h := C3_ordinal_renumbering
    [⟨10, 0, 5, none, 1⟩, ⟨11, 3, 9, none, 2⟩, ⟨12, 4, 7, none, 3⟩] 11 13 2 6 none
  have h2 := C3_ordinal_renumbering
    (remove_selected_range
      [⟨10, 0, 5, none, 1⟩, ⟨11, 3, 9, none, 2⟩, ⟨12, 4, 7, none, 3⟩] 11)
    11 13 2 6 none
  exact ⟨h.1, h2.2.2.2 h.1⟩

/-! ## Coordinate transforms (`custom_graphics_scene.py`, `video_cropper.py`) -/

/-- A `QRectF`-style rectangle: origin `(x, y)` with `width`/`height`,
in real (here rational) coordinates. -/
structure RectQ where
  x : ℚ
  y : ℚ
  w : ℚ
  h : ℚ
deriving DecidableEq

/-- The aspect-ratio constraint applied continuously while drawing in
`CustomGraphicsScene.mouseMoveEvent` (custom_graphics_scene.py:74-80):
`current_height` substitutes 1 when the height is 0 (guarding the division);
if `width / height > ratio` the width is shrunk via `setWidth(height *
ratio)`, else the height is set via `setHeight(width / ratio)`. -/
def applyAspectConstraint (r : RectQ) (ratio : ℚ) : RectQ :=
  let current_width := r.w
  let current_height := if r.h ≠ 0 then r.h else 1
  if ratio < current_width / current_height then
    { r with w := current_height * ratio }
  else
    { r with h := current_width / ratio }

/-- The scene-bounds clipping that follows the constraint
(custom_graphics_scene.py:83-91). Qt's `setRight`/`setBottom` change only the
width/height; `setLeft`/`setTop` move the origin keeping the opposite edge
fixed. -/
def clipToScene (r : RectQ) (scene : RectQ) : RectQ :=
  let r1 := if scene.x + scene.w < r.x + r.w
    then { r with w := scene.x + scene.w - r.x } else r
  let r2 := if scene.y + scene.h < r1.y + r1.h
    then { r1 with h := scene.y + scene.h - r1.y } else r1
  let r3 := if r2.x < scene.x
    then { r2 with x := scene.x, w := r2.x + r2.w - scene.x } else r2
  if r3.y < scene.y
    then { r3 with y := scene.y, h := r3.y + r3.h - scene.y } else r3

/-- Python `int()`: truncation toward zero, on a rational. -/
def pyInt (q : ℚ) : Int :=
  if 0 ≤ q then ⌊q⌋ else -⌊-q⌋

/-- An integer rectangle in source-pixel space. -/
structure IntRect where
  x : Int
  y : Int
  w : Int
  h : Int
deriving DecidableEq

/-- The display-to-source transform of `VideoCropper.crop_rect_finalized`
(video_cropper.py:437-444): `scale_w = original_width / pixmap.width()`
(1.0 when the pixmap width is 0), `scale_h` likewise, then each coordinate is
multiplied by its scale and truncated with `int()`. -/
def toSourceRect (rect : RectQ) (origW origH : Int) (pixW pixH : ℚ) : IntRect :=
  let scale_w : ℚ := if 0 < pixW then (origW : ℚ) / pixW else 1
  let scale_h : ℚ := if 0 < pixH then (origH : ℚ) / pixH else 1
  { x := pyInt (rect.x * scale_w)
    y := pyInt (rect.y * scale_h)
    w := pyInt (rect.w * scale_w)
    h := pyInt (rect.h * scale_h) }

/-- C4 counterexample: with constraint ratio 2 and a 100x100 scene, the drawn
rectangle `(99, 0, 200, 100)` satisfies the constraint after
`applyAspectConstraint` (ratio exactly 2), but the subsequent clipping to the
scene clamps the right edge and shrinks only the width, leaving a rectangle
of ratio `1/100`: the deviation from the constraint is `199/100 ≥ 1`, far
beyond any rounding epsilon. -/
theorem C4_clip_counterexample :
    (clipToScene (applyAspectConstraint ⟨99, 0, 200, 100⟩ 2) ⟨0, 0, 100, 100⟩).w
        / (clipToScene (applyAspectConstraint ⟨99, 0, 200, 100⟩ 2) ⟨0, 0, 100, 100⟩).h
      = 1 / 100
    ∧ ¬ |(clipToScene (applyAspectConstraint ⟨99, 0, 200, 100⟩ 2) ⟨0, 0, 100, 100⟩).w
        / (clipToScene (applyAspectConstraint ⟨99, 0, 200, 100⟩ 2) ⟨0, 0, 100, 100⟩).h
        - 2| < 1 := by
  have hval : (clipToScene (applyAspectConstraint ⟨99, 0, 200, 100⟩ 2)
        ⟨0, 0, 100, 100⟩).w
      / (clipToScene (applyAspectConstraint ⟨99, 0, 200, 100⟩ 2)
        ⟨0, 0, 100, 100⟩).h = 1 / 100 := by
    norm_num [clipToScene, applyAspectConstraint]
  refine ⟨hval, ?_⟩
  rw [hval, abs_of_nonpos (by norm_num)]
  norm_num

/-- C4 amended: for every rectangle with positive width and height and every
constraint ratio in `(0, 10]`, the continuously-applied constraint shrinks
width to `height * ratio` when `width / height > ratio` and otherwise sets
height to `width / ratio`, substituting 1 for a zero height in the division
guard, and the constrained rectangle satisfies `width / height = ratio`
exactly — but only before the subsequent clipping of the rectangle to the
scene bounds, which can change one side alone and break the constraint. -/
theorem C4_aspect_exact (r : RectQ) (ratio : ℚ)
    (hw : 0 < r.w) (hh : 0 < r.h) (hr : 0 < ratio) (hr10 : ratio ≤ 10) :
    (applyAspectConstraint r ratio).w / (applyAspectConstraint r ratio).h
      = ratio := by
  have hh0 : r.h ≠ 0 := ne_of_gt hh
  unfold applyAspectConstraint
  simp only [hh0, if_true, ne_eq, not_false_eq_true, ite_true]
  split
  · dsimp only
    field_simp
  · dsimp only
    rw [div_div_eq_mul_div]
    exact mul_div_cancel_left₀ ratio (ne_of_gt hw)

/-- C4 witness: the exact-ratio statement applied to the concrete rectangle
`(10, 20, 30, 40)` with ratio `3/2`. -/
theorem C4_aspect_exact_witness :
    (applyAspectConstraint ⟨10, 20, 30, 40⟩ (3 / 2)).w
        / (applyAspectConstraint ⟨10, 20, 30, 40⟩ (3 / 2)).h = 3 / 2 :=
  C4_aspect_exact ⟨10, 20, 30, 40⟩ (3 / 2) (by norm_num) (by norm_num)
    (by norm_num) (by norm_num)

/-- C5: the display-to-source transform scales `x`/`w` by
`original_width / pixmap_width` and `y`/`h` by `original_height /
pixmap_height` independently (non-uniform scale permitted) and truncates each
result to an integer; for a 1920x1080 source displayed at 960x540 the display
rect `(100, 50, 200, 150)` maps to `(200, 100, 400, 300)`. -/
theorem C5_to_source (rect : RectQ) (origW origH : Int) (pixW pixH : ℚ)
    (hw : 0 < pixW) (hh : 0 < pixH) :
    toSourceRect rect origW origH pixW pixH
      = { x := pyInt (rect.x * ((origW : ℚ) / pixW))
          y := pyInt (rect.y * ((origH : ℚ) / pixH))
          w := pyInt (rect.w * ((origW : ℚ) / pixW))
          h := pyInt (rect.h * ((origH : ℚ) / pixH)) }
    ∧ toSourceRect ⟨100, 50, 200, 150⟩ 1920 1080 960 540
        = { x := 200, y := 100, w := 400, h := 300 } := by
  constructor
  · unfold toSourceRect
    simp only [hw, hh, if_true, ite_true]
  · norm_num [toSourceRect, pyInt]

/-- C5 witness: the transform at the spec's concrete example, all hypotheses
discharged at `960 > 0`, `540 > 0`. -/
theorem C5_to_source_witness :
    toSourceRect ⟨100, 50, 200, 150⟩ 1920 1080 960 540
      = { x := 200, y := 100, w := 400, h := 300 } :=
  (C5_to_source ⟨100, 50, 200, 150⟩ 1920 1080 960 540 (by norm_num)
    (by norm_num)).2

/-! ## Playback controller (`video_editor.py`)

The decoder handle (`cv2.VideoCapture`) is modelled by its position
`pos` (`CAP_PROP_POS_FRAMES`, the index of the next frame to be decoded):
a read succeeds exactly when `pos < frameCount`, returns the frame at
index `pos` and advances the position by one. -/

/-- The playback modes: `is_playing` (forward), `loop_playback` (looping the
selected range), `is_playing_range` (explicit range preview), or none. -/
inductive PlayMode
  | idle
  | playingForward
  | loopingRange
  | playingRange
deriving DecidableEq

/-- The playback-relevant state of `VideoEditor` and its decoder:
`playStart`/`playEnd` are `current_playback_start_frame` /
`current_playback_end_frame`, `rangeEnd` is `current_range_end_frame`, and
`counter` is the reported current-frame label (and slider value). -/
structure PlayerState where
  mode : PlayMode
  pos : Int
  frameCount : Int
  playStart : Int
  playEnd : Int
  rangeEnd : Int
  counter : Int
deriving DecidableEq

/-- `VideoEditor.stop_playback` (video_editor.py:365-378): clears all mode
flags and resets `current_range_end_frame` to `-1`. -/
def stopPlayback (s : PlayerState) : PlayerState :=
  { s with mode := PlayMode.idle, rangeEnd := -1 }

/-- The clamp of `VideoEditor.update_frame_display` (video_editor.py:70-71):
`max(0, min(frame_number, frame_count - 1))`. -/
def clampFrame (frameNumber frameCount : Int) : Int :=
  max 0 (min frameNumber (frameCount - 1))

/-- `VideoEditor.update_frame_display` (video_editor.py:61-104): clamp the
requested frame, skip the seek when the decoder already sits at the target
(or just past it), then read; on success the slider/label are set to the
clamped target and `true` is returned, on a read failure the state is left
and `false` returned. -/
def update_frame_display (s : PlayerState) (frameNumber : Int) :
    PlayerState × Bool :=
  let fn := clampFrame frameNumber s.frameCount
  let seekPos := if s.pos = fn + 1 ∨ s.pos = fn then s.pos else fn
  if seekPos < s.frameCount then
    ({ s with pos := seekPos + 1, counter := fn }, true)
  else
    (s, false)

/-- The read-and-display tail of `VideoEditor._playback_step`
(video_editor.py:338-363): on a successful read the reported counter becomes
the frame actually decoded (the pre-read position, clamped by
`frame_count - 1`); on a read failure playback stops and the last known
frame is reported. -/
def readStep (s : PlayerState) : PlayerState :=
  if s.pos < s.frameCount then
    { s with pos := s.pos + 1, counter := min s.pos (s.frameCount - 1) }
  else
    { stopPlayback s with
        counter := max 0 (min (s.pos - 1) (s.frameCount - 1)) }

/-- `VideoEditor._playback_step` (video_editor.py:306-363): read the decoder
position before decoding; in range mode at/past the range end, stop and seek
the display back to the range start; in loop mode at/past the end, seek the
decoder to the start and continue into the read; in forward mode at/past the
playback end (the frame count), stop; otherwise decode the next frame. -/
def playback_step (s : PlayerState) : PlayerState :=
  if s.mode = PlayMode.idle then stopPlayback s
  else if s.mode = PlayMode.playingRange ∧ s.rangeEnd ≤ s.pos then
    (update_frame_display (stopPlayback s) s.playStart).1
  else if s.mode = PlayMode.loopingRange ∧ s.playEnd ≤ s.pos then
    readStep { s with pos := s.playStart }
  else if s.mode = PlayMode.playingForward ∧ s.playEnd ≤ s.pos then
    stopPlayback s
  else
    readStep s

/-- `VideoEditor.step_frame` (video_editor.py:406-416): target is the slider
value plus the delta; clamping happens inside `update_frame_display`. -/
def step_frame (s : PlayerState) (delta : Int) : PlayerState × Bool :=
  update_frame_display s (s.counter + delta)

/-- `VideoEditor.goto_frame` (video_editor.py:434-442): clamping happens
inside `update_frame_display`. -/
def goto_frame (s : PlayerState) (frameNumber : Int) : PlayerState × Bool :=
  update_frame_display s frameNumber

/-- Python `round()`: round half to even, on a rational. -/
def pyRound (q : ℚ) : Int :=
  let f : Int := ⌊q⌋
  let frac := q - (f : ℚ)
  if frac < 1 / 2 then f
  else if 1 / 2 < frac then f + 1
  else if f % 2 = 0 then f else f + 1

/-- The frame delta of `VideoEditor.jump_frames` (video_editor.py:425-427):
`int(round(delta_seconds * fps))`, bumped to `±1` when it rounds to 0. -/
def jumpDelta (deltaSeconds fps : ℚ) : Int :=
  let frame_delta := pyRound (deltaSeconds * fps)
  if frame_delta = 0 then (if 0 < deltaSeconds then 1 else -1) else frame_delta

/-- `VideoEditor.jump_frames` (video_editor.py:418-432): no-op when the
cached fps is not positive, otherwise a jump by the rounded frame delta. -/
def jump_frames (s : PlayerState) (deltaSeconds fps : ℚ) :
    PlayerState × Bool :=
  if fps ≤ 0 then (s, false)
  else update_frame_display s (s.counter + jumpDelta deltaSeconds fps)

/-- C6: in the per-tick playback step the pre-read decoder position decides
the outcome: in range mode at/past the range end, playback stops and the
display is seeked back to the range start (no wrap-and-continue); in loop
mode at/past the range end, the decoder is seeked to the range start and
playback continues with the frame there; in forward mode at/past the frame
count (the playback end of that mode), playback stops; otherwise the next
frame is decoded, the position advances, and the reported counter is set to
the frame actually decoded (the pre-read position). -/
theorem C6_playback_step (s : PlayerState) :
    (s.mode = PlayMode.playingRange → s.rangeEnd ≤ s.pos →
      0 ≤ s.playStart → s.playStart + 1 < s.rangeEnd →
      s.playStart < s.frameCount →
      playback_step s
        = { stopPlayback s with pos := s.playStart + 1, counter := s.playStart })
    ∧ (s.mode = PlayMode.loopingRange → s.playEnd ≤ s.pos →
      0 ≤ s.playStart → s.playStart < s.frameCount →
      (playback_step s).mode = PlayMode.loopingRange
      ∧ (playback_step s).pos = s.playStart + 1
      ∧ (playback_step s).counter = s.playStart)
    ∧ (s.mode = PlayMode.playingForward → s.playEnd = s.frameCount →
      s.frameCount ≤ s.pos →
      playback_step s = stopPlayback s)
    ∧ (s.mode ≠ PlayMode.idle →
      (s.mode = PlayMode.playingRange → s.pos < s.rangeEnd) →
      (s.mode = PlayMode.loopingRange → s.pos < s.playEnd) →
      (s.mode = PlayMode.playingForward → s.pos < s.playEnd) →
      s.pos < s.frameCount →
      (playback_step s).counter = s.pos
      ∧ (playback_step s).pos = s.pos + 1
      ∧ (playback_step s).mode = s.mode) := by
  refine ⟨?_, ?_, ?_, ?_⟩
  · intro hm hpos h0 h1 h2
    have hstep : playback_step s
        = (update_frame_display (stopPlayback s) s.playStart).1 := by
      unfold playback_step
      rw [if_neg (by simp [hm]), if_pos ⟨hm, hpos⟩]
    rw [hstep]
    unfold update_frame_display stopPlayback clampFrame
    dsimp only
    have hfn : max (0 : Int) (min s.playStart (s.frameCount - 1))
        = s.playStart := by omega
    rw [hfn]
    rw [if_neg (show ¬ (s.pos = s.playStart + 1 ∨ s.pos = s.playStart) by omega)]
    rw [if_pos h2]
  · intro hm hpos h0 h1
    have hstep : playback_step s = readStep { s with pos := s.playStart } := by
      unfold playback_step
      rw [if_neg (by simp [hm]), if_neg (by simp [hm]), if_pos ⟨hm, hpos⟩]
    rw [hstep]
    unfold readStep stopPlayback
    dsimp only
    rw [if_pos h1]
    refine ⟨hm, rfl, by dsimp only; omega⟩
  · intro hm hpe hpos
    unfold playback_step
    rw [if_neg (by simp [hm]), if_neg (by simp [hm]), if_neg (by simp [hm]),
      if_pos ⟨hm, by omega⟩]
  · intro hni hr hl hf hread
    have hstep : playback_step s = readStep s := by
      unfold playback_step
      rw [if_neg hni]
      rw [if_neg (by rintro ⟨hm, hp⟩; exact absurd hp (by simpa using hr hm))]
      rw [if_neg (by rintro ⟨hm, hp⟩; exact absurd hp (by simpa using hl hm))]
      rw [if_neg (by rintro ⟨hm, hp⟩; exact absurd hp (by simpa using hf hm))]
    rw [hstep]
    unfold readStep
    rw [if_pos hread]
    refine ⟨by dsimp only; omega, rfl, rfl⟩

/-- C6 witness: a concrete range-playback state at its range end: the step
stops playback and reports the range start. -/
theorem C6_playback_step_witness :
    playback_step
        { mode := PlayMode.playingRange, pos := 90, frameCount := 300,
          playStart := 30, playEnd := 90, rangeEnd := 90, counter := 89 }
      = { mode := PlayMode.idle, pos := 31, frameCount := 300,
          playStart := 30, playEnd := 90, rangeEnd := -1, counter := 30 } := by
  have h := (C6_playback_step
    { mode := PlayMode.playingRange, pos := 90, frameCount := 300,
      playStart := 30, playEnd := 90, rangeEnd := 90, counter := 89 }).1
    rfl (by decide) (by decide) (by decide) (by decide)
  rw [h]
  decide

/-- C10: for every loaded video with `frame_count ≥ 1`, the frame-display
operation clamps the requested index into `[0, frame_count - 1]` before
seeking, and on success reports exactly the clamped index; single-frame
stepping, second-jumps and go-to-frame all route their (arbitrary, possibly
negative or out-of-range) targets through this clamp, so no seek is issued
outside the source's frame bounds. -/
theorem C10_clamped_seeks (s : PlayerState) (fn delta : Int)
    (deltaSeconds fps : ℚ) (hfc : 1 ≤ s.frameCount) (hfps : 0 < fps) :
    (0 ≤ clampFrame fn s.frameCount ∧ clampFrame fn s.frameCount < s.frameCount)
    ∧ ((update_frame_display s fn).2 = true →
        (update_frame_display s fn).1.counter = clampFrame fn s.frameCount
        ∧ 0 ≤ (update_frame_display s fn).1.counter
        ∧ (update_frame_display s fn).1.counter < s.frameCount)
    ∧ step_frame s delta = update_frame_display s (s.counter + delta)
    ∧ goto_frame s fn = update_frame_display s fn
    ∧ jump_frames s deltaSeconds fps
        = update_frame_display s (s.counter + jumpDelta deltaSeconds fps) := by
  have hclamp : 0 ≤ clampFrame fn s.frameCount
      ∧ clampFrame fn s.frameCount < s.frameCount := by
    unfold clampFrame; omega
  refine ⟨hclamp, ?_, rfl, rfl, ?_⟩
  · intro hok
    unfold update_frame_display at hok ⊢
    dsimp only at hok ⊢
    by_cases hc : (if s.pos = clampFrame fn s.frameCount + 1
        ∨ s.pos = clampFrame fn s.frameCount then s.pos
        else clampFrame fn s.frameCount) < s.frameCount
    · rw [if_pos hc]
      exact ⟨rfl, hclamp.1, hclamp.2⟩
    · rw [if_neg hc] at hok
      simp at hok
  · unfold jump_frames
    rw [if_neg (by exact not_le.mpr hfps)]

/-- C10 witness: with 150 frames, requesting frame 99999 clamps to 149 and
requesting frame -7 clamps to 0; the display operation reports the clamped
index. -/
theorem C10_clamped_seeks_witness :
    (0 ≤ clampFrame 99999 (150 : Int) ∧ clampFrame 99999 (150 : Int) < 150)
    ∧ (0 ≤ clampFrame (-7) (150 : Int) ∧ clampFrame (-7) (150 : Int) < 150) := by
  have h1 := (C10_clamped_seeks
    { mode := PlayMode.idle, pos := 0, frameCount := 150, playStart := 0,
      playEnd := 0, rangeEnd := -1, counter := 0 } 99999 0 0 1
    (by decide) (by norm_num)).1
  have h2 := (C10_clamped_seeks
    { mode := PlayMode.idle, pos := 0, frameCount := 150, playStart := 0,
      playEnd := 0, rangeEnd := -1, counter := 0 } (-7) 0 0 1
    (by decide) (by norm_num)).1
  exact ⟨h1, h2⟩

/-! ## Export pipeline (`video_exporter.py`) -/

/-- Python `str.strip()`: drop whitespace from both ends. -/
def pyStrip (s : String) : String :=
  String.mk
    (((s.data.dropWhile Char.isWhitespace).reverse.dropWhile
        Char.isWhitespace).reverse)

/-- `VideoExporter.write_caption` (video_exporter.py:224-250), returning the
content of the caption file, or `none` when no file is written: the caption
body is the supplied content, defaulting to the stripped UI simple caption;
the stripped trigger word is prepended (with `", "`) only when both the
trigger and the body are non-empty; the file is written only when the final
caption is non-empty. -/
def write_caption (trigger simple : String) (content : Option String) :
    Option String :=
  let caption0 := match content with
    | some c => c
    | none => pyStrip simple
  let trigger_word := pyStrip trigger
  let caption := if trigger_word ≠ "" ∧ caption0 ≠ ""
    then trigger_word ++ ", " ++ caption0 else caption0
  if caption ≠ "" then some caption else none

/-- Helper: a string with a non-empty suffix is non-empty. -/
theorem append_ne_empty {s t : String} (h : t ≠ "") : s ++ t ≠ "" := by
  intro hc
  apply h
  have hl := congrArg String.length hc
  rw [String.length_append] at hl
  have hz : t.length = 0 := by
    have : String.length "" = 0 := rfl
    omega
  exact String.ext (List.length_eq_zero.mp hz)

/-- Python `max(2, (n // 2) * 2)` (video_exporter.py:487-488): floor to an
even value, with a minimum of 2 (`//` is Python floor division, `Int.fdiv`). -/
def evenFloor (n : Int) : Int := max 2 (n.fdiv 2 * 2)

theorem evenFloor_ge_two (n : Int) : 2 ≤ evenFloor n := le_max_left _ _

theorem evenFloor_even (n : Int) : evenFloor n % 2 = 0 := by
  unfold evenFloor
  rcases le_total 2 (n.fdiv 2 * 2) with h | h
  · rw [max_eq_right h]
    omega
  · rw [max_eq_left h]
    decide

/-- One step of the ffmpeg filter graph built by `export_videos`. -/
inductive FilterStep
  | fpsFilter (r : Int)
  | cropFilter (w h x y : Int)
  | scaleFilter (w h : Int)
  | setsarFilter
deriving DecidableEq

/-- The filter graph of the cropped-video export branch of
`VideoExporter.export_videos` (video_exporter.py:453-497): constant-fps
conversion, then the crop, then — when a fixed resolution is active, or
otherwise when the aspect-ratio dropdown holds a numeric ratio — a scale to
even-floored target dimensions followed by a `setsar 1` step. For a numeric
ratio `r ≥ 1` the targets are `(orig_w, round(orig_w / r))`, for `r < 1`
they are `(round(orig_h * r), orig_h)`, both derived from the segment's
natural dimensions `orig_w x orig_h`. -/
def croppedVideoFilters (origW origH : Int) (cropT : CropRect)
    (fixedRes : Option (Int × Int)) (ratioSel : Option ℚ) (outFps : Int) :
    List FilterStep :=
  let x := cropT.1
  let y := cropT.2.1
  let w := cropT.2.2.1
  let h := cropT.2.2.2
  let base := [FilterStep.fpsFilter outFps, FilterStep.cropFilter w h x y]
  match fixedRes with
  | some (fw, fh) =>
      base ++ [FilterStep.scaleFilter (evenFloor fw) (evenFloor fh),
        FilterStep.setsarFilter]
  | none =>
      match ratioSel with
      | some ratio =>
          let target_w : Int := if 1 ≤ ratio then origW
            else pyRound ((origH : ℚ) * ratio)
          let target_h : Int := if 1 ≤ ratio then pyRound ((origW : ℚ) / ratio)
            else origH
          let tw := evenFloor target_w
          let th := evenFloor target_h
          if 0 < tw ∧ 0 < th then
            base ++ [FilterStep.scaleFilter tw th, FilterStep.setsarFilter]
          else base
      | none => base

/-- The artifacts one `(source, range)` pair can produce. -/
inductive Artifact
  | croppedImage
  | uncroppedImage
  | croppedVideo
  | uncroppedVideo
deriving DecidableEq

/-- The export checkboxes read at the top of `export_videos`
(video_exporter.py:255-257). -/
structure ExportFlags where
  croppedFlag : Bool
  uncroppedFlag : Bool
  imageFlag : Bool
deriving DecidableEq

/-- The outcomes of the external per-artifact steps of one range: frame read,
`cv2.imwrite` calls, and the two ffmpeg invocations (`false` embeds a
non-zero exit or the call raising, both caught per artifact in the code). -/
structure StepOutcomes where
  readOk : Bool
  writeCroppedImageOk : Bool
  writeUncroppedImageOk : Bool
  transcodeCroppedOk : Bool
  transcodeUncroppedOk : Bool
deriving DecidableEq

/-- The crop validation used by both the image branch
(video_exporter.py:402) and the cropped-video branch (video_exporter.py:445):
present and `x ≥ 0`, `y ≥ 0`, `w > 0`, `h > 0`, `x + w ≤ orig_w`,
`y + h ≤ orig_h`. -/
def cropValid (origW origH : Int) : Option CropRect → Bool
  | none => false
  | some t =>
      decide (¬ (t.1 < 0 ∨ t.2.1 < 0 ∨ t.2.2.1 ≤ 0 ∨ t.2.2.2 ≤ 0
        ∨ origW < t.1 + t.2.2.1 ∨ origH < t.2.1 + t.2.2.2))

/-- The artifacts produced for one range by the per-range body of
`VideoExporter.export_videos` (video_exporter.py:352-606): range bounds are
validated first (out-of-bounds start, empty range, empty after clamping each
skip the range); the image branch needs a successful frame read and writes a
cropped image only for a flag-enabled, present, valid crop and an uncropped
image when that flag is set; the cropped-video branch is skipped for an
invalid crop; each artifact's external failure is caught per artifact and
only suppresses that artifact. -/
def processRange (fl : ExportFlags) (o : StepOutcomes)
    (origW origH totalFrames : Int) (r : RangeEntry) : List Artifact :=
  if r.start < 0 ∨ totalFrames ≤ r.start then []
  else if r.stop ≤ r.start then []
  else if min r.stop totalFrames ≤ r.start then []
  else
    let imageArts :=
      if fl.imageFlag then
        if o.readOk then
          (if fl.croppedFlag ∧ r.crop.isSome then
            if cropValid origW origH r.crop ∧ o.writeCroppedImageOk
              then [Artifact.croppedImage] else []
          else [])
          ++ (if fl.uncroppedFlag ∧ o.writeUncroppedImageOk
              then [Artifact.uncroppedImage] else [])
        else []
      else []
    let croppedArts :=
      if fl.croppedFlag ∧ r.crop.isSome then
        if cropValid origW origH r.crop ∧ o.transcodeCroppedOk
          then [Artifact.croppedVideo] else []
      else []
    let uncroppedArts :=
      if fl.uncroppedFlag ∧ o.transcodeUncroppedOk
        then [Artifact.uncroppedVideo] else []
    imageArts ++ croppedArts ++ uncroppedArts

/-- The per-source range loop of `export_videos` (video_exporter.py:352):
ranges are processed sequentially, each with its own step outcomes; the
per-artifact exception handlers keep a failing artifact from escaping its
range. -/
def processBatch (fl : ExportFlags) (origW origH totalFrames : Int)
    (items : List (RangeEntry × StepOutcomes)) : List Artifact :=
  items.flatMap fun p => processRange fl p.2 origW origH totalFrames p.1

/-- C7 counterexample: with the trigger word `"sks"` configured but an empty
manual caption, the fallback path writes no caption file at all (the trigger
is prepended only when the caption body is already non-empty, and an empty
caption is never written), contradicting `skipped only when both the trigger
phrase and the manual text are empty`. -/
theorem C7_caption_counterexample :
    write_caption "sks" "" none = none ∧ pyStrip "sks" ≠ "" := by
  constructor
  · decide
  · decide

/-- C7 amended: the fallback simple-caption path writes a caption file iff
the stripped manual caption is non-empty — a configured trigger word alone
produces no file; when both the trigger and the manual caption are non-empty
the file contains the trigger, `", "`, and the caption; and a non-empty
AI-generated caption is always written. -/
theorem C7_caption_amended (trigger simple c : String) :
    (write_caption trigger simple none = none ↔ pyStrip simple = "")
    ∧ (pyStrip simple ≠ "" → pyStrip trigger ≠ "" →
        write_caption trigger simple none
          = some (pyStrip trigger ++ ", " ++ pyStrip simple))
    ∧ (c ≠ "" → (write_caption trigger simple (some c)).isSome = true) := by
  refine ⟨?_, ?_, ?_⟩
  · unfold write_caption
    dsimp only
    by_cases hc : pyStrip simple = ""
    · simp [hc]
    · by_cases ht : pyStrip trigger = ""
      · simp [hc, ht]
      · have hne : pyStrip trigger ++ ", " ++ pyStrip simple ≠ "" := by
          rw [String.append_assoc]
          exact append_ne_empty (append_ne_empty hc)
        simp [hc, ht, hne]
  · intro hs ht
    unfold write_caption
    dsimp only
    have hne : pyStrip trigger ++ ", " ++ pyStrip simple ≠ "" := by
      rw [String.append_assoc]
      exact append_ne_empty (append_ne_empty hs)
    simp [hs, ht, hne]
  · intro hc
    unfold write_caption
    dsimp only
    by_cases ht : pyStrip trigger = ""
    · simp [ht, hc]
    · have hne : pyStrip trigger ++ ", " ++ c ≠ "" := by
        rw [String.append_assoc]
        exact append_ne_empty (append_ne_empty hc)
      simp [ht, hc, hne]

/-- C7 witness: trigger `"sks"` and manual caption `" a red car "` produce
the caption file content `"sks, a red car"`. -/
theorem C7_caption_amended_witness :
    write_caption "sks" " a red car " none = some ("sks" ++ ", " ++ "a red car") := by
  have h := (C7_caption_amended "sks" " a red car " "x").2.1
    (by decide) (by decide)
  rw [h]
  decide

/-- C8: for a cropped-video export with no fixed resolution and a numeric
aspect-ratio value selected, the built filter graph is exactly fps
conversion, crop, then a scale step and a `setsar 1` step; the scale targets
are derived from applying the ratio to the segment's natural dimensions
(width kept and height `round(orig_w / r)` for `r ≥ 1`, height kept and
width `round(orig_h * r)` for `r < 1`), and both targets are even and at
least 2. -/
theorem C8_cropped_scale (origW origH x y w h outFps : Int) (ratio : ℚ) :
    ∃ tw th,
      croppedVideoFilters origW origH (x, y, w, h) none (some ratio) outFps
        = [FilterStep.fpsFilter outFps, FilterStep.cropFilter w h x y,
            FilterStep.scaleFilter tw th, FilterStep.setsarFilter]
      ∧ tw % 2 = 0 ∧ th % 2 = 0 ∧ 2 ≤ tw ∧ 2 ≤ th
      ∧ tw = evenFloor (if 1 ≤ ratio then origW
          else pyRound ((origH : ℚ) * ratio))
      ∧ th = evenFloor (if 1 ≤ ratio then pyRound ((origW : ℚ) / ratio)
          else origH) := by
  refine ⟨evenFloor (if 1 ≤ ratio then origW
      else pyRound ((origH : ℚ) * ratio)),
    evenFloor (if 1 ≤ ratio then pyRound ((origW : ℚ) / ratio) else origH),
    ?_, evenFloor_even _, evenFloor_even _, evenFloor_ge_two _,
    evenFloor_ge_two _, rfl, rfl⟩
  unfold croppedVideoFilters
  dsimp only
  rw [if_pos ⟨lt_of_lt_of_le (by decide) (evenFloor_ge_two _),
    lt_of_lt_of_le (by decide) (evenFloor_ge_two _)⟩]
  rfl

/-- C9 counterexample: with all three export options enabled, all external
steps succeeding, and an invalid crop (`x + w = 2000 > 1920`), the range
produces only the uncropped image and the uncropped video: the cropped-image
artifact is also skipped, contradicting `an invalid crop skips only the
cropped-video artifact`. -/
theorem C9_invalid_crop_counterexample :
    processRange ⟨true, true, true⟩ ⟨true, true, true, true, true⟩ 1920 1080 300
        { rid := 0, start := 0, stop := 100, crop := some (0, 0, 2000, 100),
          index := 1 }
      = [Artifact.uncroppedImage, Artifact.uncroppedVideo]
    ∧ Artifact.croppedImage ∉
        processRange ⟨true, true, true⟩ ⟨true, true, true, true, true⟩
          1920 1080 300
          { rid := 0, start := 0, stop := 100, crop := some (0, 0, 2000, 100),
            index := 1 } := by
  constructor
  · decide
  · decide

/-- C9 amended: per-artifact failures are isolated. For a valid range with an
invalid (present) crop, all flags on, and the remaining steps succeeding,
exactly the uncropped image and uncropped video are produced — the cropped
video and also the cropped image are skipped; the uncropped video is
produced regardless of the outcomes of every other step; and the batch
artifacts decompose range by range, so one range's failures never affect the
ranges before or after it. -/
theorem C9_failure_isolation (fl : ExportFlags) (o : StepOutcomes)
    (origW origH tf : Int) (r : RangeEntry)
    (pre post : List (RangeEntry × StepOutcomes))
    (h0 : 0 ≤ r.start) (h1 : r.start < tf) (h2 : r.start < r.stop)
    (hcs : r.crop.isSome) (hcv : cropValid origW origH r.crop = false)
    (himg : fl.imageFlag = true) (hunc : fl.uncroppedFlag = true)
    (hcf : fl.croppedFlag = true)
    (hread : o.readOk = true) (hwu : o.writeUncroppedImageOk = true)
    (htu : o.transcodeUncroppedOk = true) :
    processRange fl o origW origH tf r
      = [Artifact.uncroppedImage, Artifact.uncroppedVideo]
    ∧ Artifact.croppedVideo ∉ processRange fl o origW origH tf r
    ∧ Artifact.croppedImage ∉ processRange fl o origW origH tf r
    ∧ (∀ o2 : StepOutcomes, o2.transcodeUncroppedOk = true →
        Artifact.uncroppedVideo ∈ processRange fl o2 origW origH tf r)
    ∧ processBatch fl origW origH tf (pre ++ (r, o) :: post)
        = processBatch fl origW origH tf pre
          ++ processRange fl o origW origH tf r
          ++ processBatch fl origW origH tf post := by
  have hmain : processRange fl o origW origH tf r
      = [Artifact.uncroppedImage, Artifact.uncroppedVideo] := by
    unfold processRange
    rw [if_neg (by omega), if_neg (by omega), if_neg (by omega)]
    dsimp only
    simp [himg, hunc, hcf, hread, hwu, htu, hcs, hcv]
  refine ⟨hmain, ?_, ?_, ?_, ?_⟩
  · rw [hmain]
    decide
  · rw [hmain]
    decide
  · intro o2 hok
    unfold processRange
    rw [if_neg (by omega), if_neg (by omega), if_neg (by omega)]
    dsimp only
    simp [hunc, hok]
  · unfold processBatch
    rw [List.flatMap_append, List.flatMap_cons]
    rw [List.append_assoc]

/-- C9 witness: the isolation statement at the counterexample configuration,
with one succeeding range before and one after in the batch. -/
theorem C9_failure_isolation_witness :
    Artifact.uncroppedVideo ∈
      processRange ⟨true, true, true⟩ ⟨true, true, true, false, true⟩
        1920 1080 300
        { rid := 0, start := 0, stop := 100, crop := some (0, 0, 2000, 100),
          index := 1 } := by
  have h := C9_failure_isolation ⟨true, true, true⟩
    ⟨true, true, true, false, true⟩ 1920 1080 300
    { rid := 0, start := 0, stop := 100, crop := some (0, 0, 2000, 100),
      index := 1 }
    [] [] (by decide) (by decide) (by decide) (by decide) (by decide)
    (by decide) (by decide) (by decide) (by decide) (by decide) (by decide)
  exact h.2.2.2.1 ⟨true, true, true, false, true⟩ (by decide)

end VidTrainPrep
